import Mathlib

/-!
Shallow embedding of chat_exporter/construct/attachment_handler.py
(DiscordChatExporterPy): the attachment re-hosting pipeline, its S3 manager
(upload, batched delete), the singleton client manager, and the three
AttachmentHandler strategies, together with theorems settling the frozen
claims about them.

Conventions of the embedding:
- Python byte payloads (bytes / io.BytesIO) are modelled by `PyData`; only
  the payload size is observable to the code under study, so each variant
  carries its size.  The `buffer` constructor models io.BytesIO; the
  `otherType` constructor models a value of any other Python type.
- The S3 bucket is modelled by the list of keys currently stored in it.
- Network effects are reified as an emitted `List S3Event`; exceptions are
  reified as outcome constructors.
- The shape of a get_object response (used as an existence probe) is
  modelled by `ProbeResult`; the real store answers status 200 for an
  existing key and raises NoSuchKey otherwise (`s3_get_object`), while the
  defensive branches of the code for other response shapes are covered by
  quantifying over `ProbeResult`.
-/

/-- Model of the Python value passed as upload data: raw bytes, an
io.BytesIO buffer (constructor `buffer`), or a value of any other type. -/
inductive PyData where
  | bytes (size : Nat)
  | buffer (size : Nat)
  | otherType
deriving DecidableEq

/-- Source `_get_data_size` (attachment_handler.py lines 404-411): size of
bytes is len(data), size of a BytesIO is data.getbuffer().nbytes, anything
else raises TypeError (modelled as `none`; in `upload_file_data` the
isinstance check at line 201 rejects such data before this helper runs, with
the same observable TypeError outcome). -/
def _get_data_size : PyData → Option Nat
  | .bytes n => some n
  | .buffer n => some n
  | .otherType => none

/-- Observable S3 interactions issued by the manager, in order. -/
inductive S3Event where
  | acquireClient
  | getObject (key : String)
  | putObject (key : String) (contentType : String)
  | deleteObjects (keys : List String)
deriving DecidableEq

/-- Outcome of `upload_file_data`: the raising outcomes model the exceptions
documented in its docstring (TypeError, ValueError for oversize,
FileExistsError), the others model a normal return. -/
inductive UploadOutcome where
  | typeError
  | payloadTooLarge
  | skippedTooLarge
  | blockedAmbiguous
  | alreadyExists
  | uploaded
deriving DecidableEq

/-- True for the outcomes on which `upload_file_data` raises an exception. -/
def UploadOutcome.raises : UploadOutcome → Bool
  | .typeError => true
  | .payloadTooLarge => true
  | .alreadyExists => true
  | _ => false

/-- Shape of the get_object response used as the existence probe when
overwrite is false: NoSuchKey exception, or a response whose
ResponseMetadata.HTTPStatusCode field is present (`ok (some s)`) or missing
(`ok none`, the KeyError branch of the source). -/
inductive ProbeResult where
  | noSuchKey
  | ok (status : Option Nat)
deriving DecidableEq

/-- Response of the real store to the existence probe: an existing key
answers with HTTP status 200, a missing key raises NoSuchKey. -/
def s3_get_object (bucket : List String) (key : String) : ProbeResult :=
  if bucket.contains key then .ok (some 200) else .noSuchKey

/-- Effect of put_object on the bucket key set. -/
def put_key (bucket : List String) (key : String) : List String :=
  if bucket.contains key then bucket else bucket ++ [key]

namespace S3Manager

/-- Source `S3Manager.upload_file_data` (lines 184-234), with the probe
response as a parameter: rejects non-byte data (TypeError); rejects or skips
a payload over 25 MiB depending on skip_files_which_are_too_large; acquires
the client lazily; when overwrite is false probes the key, raising
FileExistsError on status 200, returning without writing when the status
field is missing, and proceeding on NoSuchKey (or any non-200 status);
finally writes the object.  Returns the outcome, the S3 calls issued, and
the new bucket contents. -/
def upload_file_data_core (probe : ProbeResult) (client_present : Bool)
    (bucket : List String) (data : PyData) (key_name : String)
    (overwrite : Bool) (content_type : String)
    (skip_files_which_are_too_large : Bool) :
    UploadOutcome × List S3Event × List String :=
  match _get_data_size data with
  | none => (.typeError, [], bucket)
  | some size =>
    if size > 25 * 1024 * 1024 then
      if skip_files_which_are_too_large then (.skippedTooLarge, [], bucket)
      else (.payloadTooLarge, [], bucket)
    else
      let ev0 : List S3Event := if client_present then [] else [.acquireClient]
      if overwrite then
        (.uploaded, ev0 ++ [.putObject key_name content_type],
          put_key bucket key_name)
      else
        let ev1 := ev0 ++ [.getObject key_name]
        match probe with
        | .noSuchKey =>
          (.uploaded, ev1 ++ [.putObject key_name content_type],
            put_key bucket key_name)
        | .ok none => (.blockedAmbiguous, ev1, bucket)
        | .ok (some status) =>
          if status = 200 then (.alreadyExists, ev1, bucket)
          else (.uploaded, ev1 ++ [.putObject key_name content_type],
            put_key bucket key_name)

/-- Upload against the real store semantics: the probe result is the
response of `s3_get_object` on the current bucket. -/
def upload_file_data (client_present : Bool) (bucket : List String)
    (data : PyData) (key_name : String) (overwrite : Bool)
    (content_type : String) (skip_files_which_are_too_large : Bool) :
    UploadOutcome × List S3Event × List String :=
  upload_file_data_core (s3_get_object bucket key_name) client_present bucket
    data key_name overwrite content_type skip_files_which_are_too_large

/-- The key-collecting loop of `delete_files_in_list` (lines 244-254): walks
the supplied keys, breaking as soon as 1000 keys have been collected, probes
each key with get_object, skips the key on NoSuchKey, otherwise appends it
to the accumulator. -/
def collect_keys_to_delete (bucket : List String) (files : List String)
    (acc : List String) : List String :=
  match files with
  | [] => acc
  | file_key :: rest =>
    if acc.length ≥ 1000 then acc
    else if bucket.contains file_key then
      collect_keys_to_delete bucket rest (acc ++ [file_key])
    else collect_keys_to_delete bucket rest acc

/-- Effect of one delete_objects call: removes the batch from the bucket. -/
def delete_keys (bucket : List String) (keys : List String) : List String :=
  bucket.filter (fun k => !(keys.contains k))

/-- Source `S3Manager.delete_files_in_list` (lines 236-265), fuel-indexed to
host its self-call: collects at most 1000 existing keys, and if any were
collected issues one delete_objects call for them; the source then recurses
on the collected batch when its length exceeds 1000.  Returns the list of
delete_objects batches issued and the new bucket contents.  (As proved in
`collect_keys_length_le`, the collected batch never exceeds 1000
keys, so the recursive branch is unreachable; were it reached, the source
would also pass a list of Key-dicts where strings are expected.) -/
def delete_files_in_list_fuel (bucket : List String) :
    Nat → List String → List (List String) × List String
  | 0, _ => ([], bucket)
  | fuel + 1, files_to_delete =>
    let keys_to_delete := collect_keys_to_delete bucket files_to_delete []
    if keys_to_delete.isEmpty then ([], bucket)
    else
      let bucket2 := delete_keys bucket keys_to_delete
      if keys_to_delete.length > 1000 then
        let rest := delete_files_in_list_fuel bucket2 fuel keys_to_delete
        (keys_to_delete :: rest.1, rest.2)
      else ([keys_to_delete], bucket2)

/-- Source `S3Manager.delete_files_in_list` at its call sites: the fuel
exceeds any possible recursion depth (the recursion is in fact dead). -/
def delete_files_in_list (bucket : List String) (files_to_delete : List String) :
    List (List String) × List String :=
  delete_files_in_list_fuel bucket (files_to_delete.length + 1) files_to_delete

end S3Manager

/-- Python str.lower restricted to ASCII case mapping, which covers every
string this code compares (extension literals and file names). -/
def str_lower (s : String) : String :=
  String.mk (s.data.map Char.toLower)

/-- Python str.endswith, computed on the character lists. -/
def ends_with (s suffix : String) : Bool :=
  suffix.data.isSuffixOf s.data

/-- Source list of recognized image extensions (lines 305-313, also lines
57-65 of the local-file-host handler). -/
def valid_image_exts : List String :=
  [".png", ".jpg", ".jpeg", ".webp", ".bmp", ".tiff", ".gif"]

/-- Test whether a file name carries a recognized image extension, as
computed by both handlers over attachment.filename.lower(). -/
def is_valid_image (filename : String) : Bool :=
  valid_image_exts.any (fun ext => ends_with (str_lower filename) ext)

/-- Value assigned to content_type by the image-extension loop at the top of
`_get_content_type` (lines 378-381): the first matching extension gives
image/(extension without its leading dot); no match leaves it unassigned. -/
def image_loop_content_type (file_name : String) : Option String :=
  (valid_image_exts.find? (fun ext => ends_with (str_lower file_name) ext)).map
    (fun ext => "image/" ++ String.mk (ext.data.drop 1))

namespace AttachmentToS3Handler

/-- Source `AttachmentToS3Handler._get_content_type` (lines 376-392).  The
source first runs the image-extension loop (`image_loop_content_type`), but
the if/elif/else chain that follows is not guarded by that loop having
matched: it unconditionally reassigns content_type, so the loop value is
dead and the function returns html/text for every name that does not end in
.mp4, .mp3, .wav or .ogg, image extensions included. -/
def _get_content_type (file_name : String) : String :=
  let lower := str_lower file_name
  let _dead := image_loop_content_type file_name
  if ends_with lower ".mp4" then "video/mp4"
  else if ends_with lower ".mp3" then "audio/mpeg"
  else if ends_with lower ".wav" then "audio/wav"
  else if ends_with lower ".ogg" then "audio/ogg"
  else "html/text"

end AttachmentToS3Handler

/-- UTF-8 bytes of a Unicode code point, as Python encodes a str for
percent-encoding. -/
def utf8_bytes (n : Nat) : List Nat :=
  if n < 0x80 then [n]
  else if n < 0x800 then [0xC0 + n / 0x40, 0x80 + n % 0x40]
  else if n < 0x10000 then
    [0xE0 + n / 0x1000, 0x80 + (n / 0x40) % 0x40, 0x80 + n % 0x40]
  else
    [0xF0 + n / 0x40000, 0x80 + (n / 0x1000) % 0x40, 0x80 + (n / 0x40) % 0x40,
     0x80 + n % 0x40]

/-- Bytes Python urllib leaves unquoted: ASCII letters, digits, and the
characters underscore, dot, hyphen, tilde. -/
def is_unreserved_byte (b : Nat) : Bool :=
  (0x41 ≤ b ∧ b ≤ 0x5A) ∨ (0x61 ≤ b ∧ b ≤ 0x7A) ∨ (0x30 ≤ b ∧ b ≤ 0x39) ∨
    b = 0x5F ∨ b = 0x2E ∨ b = 0x2D ∨ b = 0x7E

/-- Uppercase hexadecimal digit for a value below 16. -/
def hex_digit (n : Nat) : Char :=
  if n < 10 then Char.ofNat (0x30 + n) else Char.ofNat (0x41 + n - 10)

/-- Percent-encoding of one byte. -/
def percent_byte (b : Nat) : String :=
  "%" ++ String.singleton (hex_digit (b / 16)) ++ String.singleton (hex_digit (b % 16))

/-- Encoding of one character under urllib.parse.quote_plus: a space becomes
a plus, an unreserved ASCII character stands for itself, and every other
character has each of its UTF-8 bytes percent-encoded. -/
def quote_plus_char (c : Char) : String :=
  if c = ' ' then "+"
  else if is_unreserved_byte c.toNat then String.singleton c
  else String.join ((utf8_bytes c.toNat).map percent_byte)

/-- Python urllib.parse.quote_plus, used by both handlers to build the
generated file name. -/
def quote_plus (s : String) : String :=
  String.join (s.data.map quote_plus_char)

/-- Generated file name (lines 54-56 and 321-323): quote_plus of the UTC
timestamp string, an underscore, and the original attachment file name. -/
def make_file_name (ts : String) (filename : String) : String :=
  quote_plus (ts ++ "_" ++ filename)

/-- Python str.removesuffix: drops the suffix once when present. -/
def removesuffix (s : String) (suffix : String) : String :=
  if ends_with s suffix then String.mk (s.data.take (s.data.length - suffix.data.length))
  else s

/-- The attachment record mutated in place by process_asset: only the fields
this pipeline reads or writes. -/
structure Attachment where
  filename : String
  url : String
  proxy_url : String
deriving DecidableEq

namespace AttachmentToS3Handler

/-- Mutable state of one AttachmentToS3Handler instance: prefixKey models
the self.key_prefix attribute (the name avoids a reserved token),
uploaded_keys the rollback history, plus the configured flags; the
client_present flag records whether an aiobotocore client was supplied to
the constructor (otherwise S3Manager acquires the singleton lazily). -/
structure State where
  prefixKey : String
  uploaded_keys : List String
  skip_files_which_are_too_large : Bool
  client_present : Bool
deriving DecidableEq

/-- Result of one process_asset call: success returns the mutated
attachment; noData models the ValueError raised when no payload was
obtained; uploadFailed models the except-branch, recording the exact list
passed to delete_files_in_list and the re-raised upload error. -/
inductive AssetResult where
  | success (att : Attachment)
  | noData
  | uploadFailed (rollbackArg : List String) (err : UploadOutcome)
deriving DecidableEq

/-- Full observable outcome of one process_asset call. -/
structure ProcOut where
  result : AssetResult
  state : State
  bucket : List String
  events : List S3Event
deriving DecidableEq

/-- The fetch-and-transcode try-block of `process_asset` (lines 331-344):
fetch failure (modelled by `none`) leaves data_to_upload as None; for a
recognized image extension the payload goes through compress_image, whose
exception (modelled by the compress function returning `none`) is swallowed
by the same except clause, also leaving data_to_upload as None; any other
payload is uploaded untransformed. -/
def fetch_transcode (filename : String) (fetched : Option PyData)
    (compress : PyData → Option PyData) : Option PyData :=
  match fetched with
  | none => none
  | some data =>
    if is_valid_image filename then compress data else some data

/-- Upload stage of `AttachmentToS3Handler.process_asset` (lines 346-374),
taking the already-generated file name and the data_to_upload produced by
the try-block.  When data is present: strips one trailing slash from
self.key_prefix in place, joins it with the file name (prefix omitted when
empty), uploads with overwrite=True and the content type of
`_get_content_type`; if the upload raises, calls delete_files_in_list on
self.uploaded_keys and re-raises; on a normal return rewrites url and
proxy_url to /(prefix)/(file name).  Nothing is ever appended to
self.uploaded_keys.  When data is absent raises ValueError (noData). -/
def upload_stage (st : State) (bucket : List String) (att : Attachment)
    (data_to_upload : Option PyData) (file_name : String) : ProcOut :=
  match data_to_upload with
  | none => ⟨.noData, st, bucket, []⟩
  | some data =>
    let pfx := removesuffix st.prefixKey "/"
    let st2 : State := { st with prefixKey := pfx }
    let key := if pfx.data.isEmpty then file_name else pfx ++ "/" ++ file_name
    let content_type := _get_content_type file_name
    let up := S3Manager.upload_file_data st2.client_present bucket data key
      true content_type st2.skip_files_which_are_too_large
    if up.1.raises then
      let del := S3Manager.delete_files_in_list up.2.2 st2.uploaded_keys
      ⟨.uploadFailed st2.uploaded_keys up.1, st2, del.2,
        up.2.1 ++ del.1.map S3Event.deleteObjects⟩
    else
      let file_url := "/" ++ pfx ++ "/" ++ file_name
      let att2 := { att with url := file_url, proxy_url := file_url }
      ⟨.success att2, st2, up.2.2, up.2.1⟩

/-- Whole `AttachmentToS3Handler.process_asset` (lines 316-374): generates
the file name from the UTC timestamp and attachment.filename, runs the
fetch-and-transcode try-block, then the upload stage. -/
def process_asset (st : State) (bucket : List String) (att : Attachment)
    (ts : String) (fetched : Option PyData)
    (compress : PyData → Option PyData) : ProcOut :=
  let file_name := make_file_name ts att.filename
  let data_to_upload := fetch_transcode att.filename fetched compress
  upload_stage st bucket att data_to_upload file_name

end AttachmentToS3Handler

namespace AttachmentToLocalFileHostHandler

/-- What one local-file-host process_asset call wrote to disk: the
compressed JPEG, the original attachment bytes, or nothing at all. -/
inductive SaveAction where
  | compressedJpeg (path : String)
  | originalBytes (path : String)
  | nothing
deriving DecidableEq

/-- Source `AttachmentToLocalFileHostHandler.process_asset` (lines 49-93).
When a compress amount is configured and the name has an image extension,
the whole fetch-decode-save sequence runs in a try whose except clause only
passes, so a fetch or decode failure (fetch_ok, decodable) writes nothing;
only the else-branch saves the original bytes.  The url and proxy_url
fields are rewritten to url_base/(file name) in every case and the
attachment is returned. -/
def process_asset (compress_amount : Option Nat) (base_path : String)
    (url_base : String) (att : Attachment) (ts : String)
    (fetch_ok : Bool) (decodable : Bool) : SaveAction × Attachment :=
  let file_name := make_file_name ts att.filename
  let is_valid := is_valid_image att.filename
  let action :=
    if compress_amount.isSome ∧ is_valid then
      if fetch_ok ∧ decodable then
        SaveAction.compressedJpeg (base_path ++ "/" ++ file_name)
      else SaveAction.nothing
    else SaveAction.originalBytes (base_path ++ "/" ++ file_name)
  let file_url := url_base ++ "/" ++ file_name
  (action, { att with url := file_url, proxy_url := file_url })

end AttachmentToLocalFileHostHandler

namespace AsyncS3ClientManager

/-- Class-level state of AsyncS3ClientManager: the singleton client and its
context manager (cls._client, cls._context), modelled as identifiers of the
created connection; nextConn instruments the model with the number of
connections ever created, so a fresh connection is observable. -/
structure MgrState where
  client : Option Nat
  context : Option Nat
  nextConn : Nat
deriving DecidableEq

/-- State at module import: no client, no context. -/
def initState : MgrState := ⟨none, none, 0⟩

/-- Source `AsyncS3ClientManager.get_client` (lines 137-153): when
cls._client is None, creates the context and enters it, storing both;
returns the client.  (The subsequent falsiness re-check of cls._client
cannot fire, a created client object being truthy.) -/
def get_client (s : MgrState) : MgrState × Nat :=
  match s.client with
  | some c => (s, c)
  | none =>
    (⟨some s.nextConn, some s.nextConn, s.nextConn + 1⟩, s.nextConn)

/-- Source `AsyncS3ClientManager.close` (lines 155-161): when cls._context
is not None, exits it and resets both cls._client and cls._context to None;
otherwise does nothing. -/
def close (s : MgrState) : MgrState :=
  match s.context with
  | some _ => ⟨none, none, s.nextConn⟩
  | none => s

end AsyncS3ClientManager

/-!
Helper lemmas about the delete batching loop.
-/

/-- The collecting loop never grows its accumulator past 1000 keys. -/
theorem collect_keys_length_le (bucket : List String)
    (files : List String) :
    ∀ acc : List String, acc.length ≤ 1000 →
      (S3Manager.collect_keys_to_delete bucket files acc).length ≤ 1000 := by
  induction files with
  | nil => intro acc h; simpa [S3Manager.collect_keys_to_delete] using h
  | cons k rest ih =>
    intro acc h
    rw [S3Manager.collect_keys_to_delete]
    by_cases hge : acc.length ≥ 1000
    · rw [if_pos hge]; exact h
    · rw [if_neg hge]
      by_cases hc : bucket.contains k = true
      · rw [if_pos hc]
        refine ih (acc ++ [k]) ?_
        simp only [List.length_append, List.length_singleton]
        omega
      · rw [if_neg hc]; exact ih acc h

/-- When every supplied key exists in the bucket, the collecting loop
returns the accumulator extended by the first 1000 - |acc| supplied keys. -/
theorem collect_keys_all_exist (bucket : List String)
    (files : List String) (hall : ∀ k ∈ files, bucket.contains k = true) :
    ∀ acc : List String, acc.length ≤ 1000 →
      S3Manager.collect_keys_to_delete bucket files acc =
        acc ++ files.take (1000 - acc.length) := by
  induction files with
  | nil => intro acc _; simp [S3Manager.collect_keys_to_delete]
  | cons k rest ih =>
    intro acc h
    rw [S3Manager.collect_keys_to_delete]
    by_cases hge : acc.length ≥ 1000
    · rw [if_pos hge]
      have h1000 : acc.length = 1000 := Nat.le_antisymm h hge
      simp [h1000]
    · rw [if_neg hge]
      have hk : bucket.contains k = true := hall k (List.mem_cons_self k rest)
      have hrest : ∀ x ∈ rest, bucket.contains x = true :=
        fun x hx => hall x (List.mem_cons_of_mem k hx)
      rw [if_pos hk]
      have step := ih hrest (acc ++ [k])
        (by simp only [List.length_append, List.length_singleton]; omega)
      simp only [List.length_append, List.length_singleton] at step
      rw [step]
      have hsub : 1000 - acc.length = (1000 - (acc.length + 1)) + 1 := by omega
      rw [hsub, List.take_succ_cons, List.append_assoc, List.singleton_append]

/-- A delete pass issues at most one delete_objects call: the collected
batch is capped at 1000 keys, so the recursion guard never fires. -/
theorem delete_files_in_list_le_one_call (bucket files : List String) :
    (S3Manager.delete_files_in_list bucket files).1.length ≤ 1 := by
  unfold S3Manager.delete_files_in_list
  rw [S3Manager.delete_files_in_list_fuel]
  have hle := collect_keys_length_le bucket files [] (by simp)
  by_cases he : (S3Manager.collect_keys_to_delete bucket files []).isEmpty
  · simp [he]
  · have : ¬ (S3Manager.collect_keys_to_delete bucket files []).length > 1000 :=
      Nat.not_lt.mpr hle
    simp [he, this]

/-!
Claim theorems.
-/

/-- C2: the claim says delete_files_in_list recurses past 1000 keys so that
1500 existing keys yield two batched delete calls (1000 then 500).  The
code caps the collected batch at 1000 keys before the recursion guard
(which compares against a bound the batch can never exceed), so every call
issues at most one delete_objects call; on 1500 existing keys exactly one
call is issued, carrying only the first 1000 keys, and the remaining 500
are never deleted. -/
theorem c2_delete_batch_eval :
    (∀ bucket files : List String,
      (S3Manager.delete_files_in_list bucket files).1.length ≤ 1) ∧
    (S3Manager.delete_files_in_list
        ((List.range 1500).map (fun i => "k" ++ Nat.repr i))
        ((List.range 1500).map (fun i => "k" ++ Nat.repr i))).1 =
      [((List.range 1500).map (fun i => "k" ++ Nat.repr i)).take 1000] := by
  refine ⟨delete_files_in_list_le_one_call, ?_⟩
  set F := (List.range 1500).map (fun i => "k" ++ Nat.repr i) with hF
  have hall : ∀ k ∈ F, F.contains k = true := fun k hk =>
    List.elem_eq_true_of_mem hk
  have hcoll : S3Manager.collect_keys_to_delete F F [] = F.take 1000 := by
    have h := collect_keys_all_exist F F hall [] (by simp)
    simpa using h
  have hlenF : F.length = 1500 := by simp [hF]
  have hlen : (F.take 1000).length = 1000 := by
    simp [List.length_take, hlenF]
  have hne : (F.take 1000).isEmpty = false := by
    rcases h : F.take 1000 with _ | ⟨a, l⟩
    · rw [h] at hlen; simp at hlen
    · rfl
  unfold S3Manager.delete_files_in_list
  rw [S3Manager.delete_files_in_list_fuel]
  simp only [hcoll, hne, Bool.false_eq_true, if_false, hlen]
  norm_num

/-- C3: the claim says image extensions yield an image/(ext) content type.
The image-extension loop does compute that value, but the if/elif/else
chain that follows reassigns content_type unconditionally, so every image
extension actually yields the generic fallback html/text; only the
.mp4/.mp3/.wav/.ogg cases behave as claimed. -/
theorem c3_content_type_eval :
    AttachmentToS3Handler._get_content_type "photo.png" = "html/text" ∧
    image_loop_content_type "photo.png" = some "image/png" ∧
    AttachmentToS3Handler._get_content_type "a.jpg" = "html/text" ∧
    AttachmentToS3Handler._get_content_type "a.jpeg" = "html/text" ∧
    AttachmentToS3Handler._get_content_type "a.webp" = "html/text" ∧
    AttachmentToS3Handler._get_content_type "a.bmp" = "html/text" ∧
    AttachmentToS3Handler._get_content_type "a.tiff" = "html/text" ∧
    AttachmentToS3Handler._get_content_type "a.gif" = "html/text" ∧
    AttachmentToS3Handler._get_content_type "a.mp4" = "video/mp4" ∧
    AttachmentToS3Handler._get_content_type "a.mp3" = "audio/mpeg" ∧
    AttachmentToS3Handler._get_content_type "a.wav" = "audio/wav" ∧
    AttachmentToS3Handler._get_content_type "a.ogg" = "audio/ogg" ∧
    AttachmentToS3Handler._get_content_type "a.pdf" = "html/text" := by
  decide

/-- C8: a process_asset call whose fetch/transcode step produced no payload
raises the no-data ValueError, leaves the handler state and the bucket
untouched, issues no S3 call, and in particular never invokes
delete_files_in_list. -/
theorem c8_no_data_no_rollback :
    (∀ (st : AttachmentToS3Handler.State) (bucket : List String)
        (att : Attachment) (file_name : String),
      AttachmentToS3Handler.upload_stage st bucket att none file_name =
        ⟨.noData, st, bucket, []⟩) ∧
    (∀ (st : AttachmentToS3Handler.State) (bucket : List String)
        (att : Attachment) (ts : String) (compress : PyData → Option PyData),
      AttachmentToS3Handler.process_asset st bucket att ts none compress =
        ⟨.noData, st, bucket, []⟩) :=
  ⟨fun _ _ _ _ => rfl, fun _ _ _ _ _ => rfl⟩

/-- C9: get_client returns the existing client unchanged when one is open,
and otherwise opens exactly one fresh connection; close is a no-op when no
context exists (never opened, or already closed), is idempotent, and when a
context is open it tears the state down to uninitialized, after which
get_client opens a fresh connection. -/
theorem c9_client_lifecycle :
    (∀ (s : AsyncS3ClientManager.MgrState) (c : Nat), s.client = some c →
      AsyncS3ClientManager.get_client s = (s, c)) ∧
    (∀ s : AsyncS3ClientManager.MgrState, s.context = none →
      AsyncS3ClientManager.close s = s) ∧
    (∀ s : AsyncS3ClientManager.MgrState,
      AsyncS3ClientManager.close (AsyncS3ClientManager.close s) =
        AsyncS3ClientManager.close s) ∧
    (∀ (s : AsyncS3ClientManager.MgrState) (ctx : Nat), s.context = some ctx →
      AsyncS3ClientManager.close s = ⟨none, none, s.nextConn⟩) ∧
    (∀ s : AsyncS3ClientManager.MgrState, s.client = none →
      AsyncS3ClientManager.get_client s =
        (⟨some s.nextConn, some s.nextConn, s.nextConn + 1⟩, s.nextConn)) ∧
    AsyncS3ClientManager.close AsyncS3ClientManager.initState =
      AsyncS3ClientManager.initState := by
  refine ⟨?_, ?_, ?_, ?_, ?_, rfl⟩
  · intro s c h; simp [AsyncS3ClientManager.get_client, h]
  · intro s h; simp [AsyncS3ClientManager.close, h]
  · intro s
    cases hx : s.context <;> simp [AsyncS3ClientManager.close, hx]
  · intro s ctx h; simp [AsyncS3ClientManager.close, h]
  · intro s h; simp [AsyncS3ClientManager.get_client, h]

/-- C9 witness: the lifecycle facts applied at concrete manager states. -/
theorem c9_client_lifecycle_witness :
    AsyncS3ClientManager.get_client ⟨some 3, some 3, 4⟩ = (⟨some 3, some 3, 4⟩, 3) ∧
    AsyncS3ClientManager.close ⟨none, none, 4⟩ = ⟨none, none, 4⟩ ∧
    AsyncS3ClientManager.close ⟨some 3, some 3, 4⟩ = ⟨none, none, 4⟩ ∧
    AsyncS3ClientManager.get_client ⟨none, none, 4⟩ = (⟨some 4, some 4, 5⟩, 4) :=
  ⟨c9_client_lifecycle.1 ⟨some 3, some 3, 4⟩ 3 rfl,
   c9_client_lifecycle.2.1 ⟨none, none, 4⟩ rfl,
   c9_client_lifecycle.2.2.2.1 ⟨some 3, some 3, 4⟩ 3 rfl,
   c9_client_lifecycle.2.2.2.2.1 ⟨none, none, 4⟩ rfl⟩

/-- C4: a payload strictly over 25 MiB is rejected with the ValueError
(payloadTooLarge) when skip_files_which_are_too_large is false and is
silently skipped without any store interaction when it is true; the
boundary is exact: 25 MiB + 1 bytes is rejected while exactly 25 MiB is
uploaded. -/
theorem c4_size_limit :
    (∀ (probe : ProbeResult) (cp : Bool) (bucket : List String)
        (data : PyData) (key ct : String) (ow : Bool) (n : Nat),
      _get_data_size data = some n → n > 25 * 1024 * 1024 →
      S3Manager.upload_file_data_core probe cp bucket data key ow ct false =
        (.payloadTooLarge, [], bucket) ∧
      S3Manager.upload_file_data_core probe cp bucket data key ow ct true =
        (.skippedTooLarge, [], bucket)) ∧
    S3Manager.upload_file_data true [] (.bytes (25 * 1024 * 1024 + 1)) "k"
        true "ct" false = (.payloadTooLarge, [], []) ∧
    S3Manager.upload_file_data true [] (.bytes (25 * 1024 * 1024 + 1)) "k"
        true "ct" true = (.skippedTooLarge, [], []) ∧
    S3Manager.upload_file_data true [] (.bytes (25 * 1024 * 1024)) "k"
        true "ct" false =
      (.uploaded, [.putObject "k" "ct"], ["k"]) := by
  refine ⟨?_, by decide, by decide, by decide⟩
  intro probe cp bucket data key ct ow n hsize hbig
  cases data <;> simp [_get_data_size] at hsize <;> subst hsize <;>
    exact ⟨by simp [S3Manager.upload_file_data_core, _get_data_size, hbig],
           by simp [S3Manager.upload_file_data_core, _get_data_size, hbig]⟩

/-- C4 witness: the oversize rules applied at a concrete 25 MiB + 1
payload. -/
theorem c4_size_limit_witness :
    S3Manager.upload_file_data_core .noSuchKey true []
        (.bytes (25 * 1024 * 1024 + 1)) "k" false "ct" false =
      (.payloadTooLarge, [], []) ∧
    S3Manager.upload_file_data_core .noSuchKey true []
        (.bytes (25 * 1024 * 1024 + 1)) "k" false "ct" true =
      (.skippedTooLarge, [], []) :=
  c4_size_limit.1 .noSuchKey true [] (.bytes (25 * 1024 * 1024 + 1)) "k" "ct"
    false (25 * 1024 * 1024 + 1) rfl (by norm_num)

/-- C5: with overwrite false and a within-limit payload, the upload probes
the key once; a probe answering status 200 raises FileExistsError with no
write; NoSuchKey lets the write proceed; a success response missing the
status field blocks the upload without raising and without writing.  On
the real store, two successive overwrite=false uploads of the same key have
the first succeed and the second fail with FileExistsError. -/
theorem c5_overwrite_false :
    (∀ (cp : Bool) (bucket : List String) (data : PyData) (key ct : String)
        (skip : Bool) (n : Nat),
      _get_data_size data = some n → ¬ n > 25 * 1024 * 1024 →
      S3Manager.upload_file_data_core (.ok (some 200)) cp bucket data key
          false ct skip =
        (.alreadyExists,
          (if cp then [] else [.acquireClient]) ++ [.getObject key],
          bucket) ∧
      S3Manager.upload_file_data_core .noSuchKey cp bucket data key
          false ct skip =
        (.uploaded,
          (if cp then [] else [.acquireClient]) ++
            [.getObject key, .putObject key ct],
          put_key bucket key) ∧
      S3Manager.upload_file_data_core (.ok none) cp bucket data key
          false ct skip =
        (.blockedAmbiguous,
          (if cp then [] else [.acquireClient]) ++ [.getObject key],
          bucket)) ∧
    S3Manager.upload_file_data true [] (.bytes 10) "k" false "ct" false =
      (.uploaded, [.getObject "k", .putObject "k" "ct"], ["k"]) ∧
    S3Manager.upload_file_data true ["k"] (.bytes 10) "k" false "ct" false =
      (.alreadyExists, [.getObject "k"], ["k"]) := by
  refine ⟨?_, by decide, by decide⟩
  intro cp bucket data key ct skip n hsize hbig
  cases data <;> simp [_get_data_size] at hsize <;> subst hsize <;>
    refine ⟨?_, ?_, ?_⟩ <;>
    simp [S3Manager.upload_file_data_core, _get_data_size, hbig]

/-- C5 witness: the probe rules applied at concrete inputs. -/
theorem c5_overwrite_false_witness :
    S3Manager.upload_file_data_core (.ok (some 200)) true ["k"] (.bytes 10)
        "k" false "ct" false = (.alreadyExists, [.getObject "k"], ["k"]) ∧
    S3Manager.upload_file_data_core (.ok none) true [] (.bytes 10)
        "k" false "ct" false = (.blockedAmbiguous, [.getObject "k"], []) := by
  have h1 := c5_overwrite_false.1 true ["k"] (.bytes 10) "k" "ct" false 10
    rfl (by norm_num)
  have h2 := c5_overwrite_false.1 true [] (.bytes 10) "k" "ct" false 10
    rfl (by norm_num)
  exact ⟨by simpa using h1.1, by simpa using h2.2.2⟩

/-- A within-limit byte payload always reaches the probe-or-write part of
upload_file_data: its outcome is uploaded, blockedAmbiguous or
alreadyExists. -/
theorem core_outcome_of_small (probe : ProbeResult) (cp : Bool)
    (bucket : List String) (d : PyData) (key ct : String) (ow skip : Bool)
    (n : Nat) (hd : _get_data_size d = some n)
    (hb : ¬ n > 25 * 1024 * 1024) :
    (S3Manager.upload_file_data_core probe cp bucket d key ow ct skip).1
        = .uploaded ∨
    (S3Manager.upload_file_data_core probe cp bucket d key ow ct skip).1
        = .blockedAmbiguous ∨
    (S3Manager.upload_file_data_core probe cp bucket d key ow ct skip).1
        = .alreadyExists := by
  simp only [S3Manager.upload_file_data_core, hd, if_neg hb]
  cases ow
  · rcases probe with _ | st0
    · simp
    · rcases st0 with _ | s0
      · simp
      · by_cases hs : s0 = 200 <;> simp [hs]
  · simp

/-- C10: whenever upload_file_data rejects its input — the TypeError for
non-byte data, or either oversize outcome (error or silent skip) — it does
so before any object-store interaction: no client acquisition, no
existence probe, no write are issued, and the bucket is unchanged. -/
theorem c10_reject_before_store (probe : ProbeResult) (cp : Bool)
    (bucket : List String) (data : PyData) (key ct : String)
    (ow skip : Bool) :
    ((S3Manager.upload_file_data_core probe cp bucket data key ow ct skip).1
        = .typeError ∨
      (S3Manager.upload_file_data_core probe cp bucket data key ow ct skip).1
        = .payloadTooLarge ∨
      (S3Manager.upload_file_data_core probe cp bucket data key ow ct skip).1
        = .skippedTooLarge) →
    (S3Manager.upload_file_data_core probe cp bucket data key ow ct skip).2.1
        = [] ∧
    (S3Manager.upload_file_data_core probe cp bucket data key ow ct skip).2.2
        = bucket := by
  intro h
  rcases data with n | n | _
  · by_cases hb : n > 25 * 1024 * 1024
    · cases skip <;>
        simp [S3Manager.upload_file_data_core, _get_data_size, hb]
    · exfalso
      rcases core_outcome_of_small probe cp bucket (.bytes n) key ct ow skip
          n rfl hb with h2 | h2 | h2 <;>
      rcases h with h | h | h <;> rw [h] at h2 <;> simp at h2
  · by_cases hb : n > 25 * 1024 * 1024
    · cases skip <;>
        simp [S3Manager.upload_file_data_core, _get_data_size, hb]
    · exfalso
      rcases core_outcome_of_small probe cp bucket (.buffer n) key ct ow skip
          n rfl hb with h2 | h2 | h2 <;>
      rcases h with h | h | h <;> rw [h] at h2 <;> simp at h2
  · exact ⟨rfl, rfl⟩

/-- C10 witness: non-byte data is rejected with no store interaction. -/
theorem c10_reject_before_store_witness :
    (S3Manager.upload_file_data_core .noSuchKey false ["b"] .otherType "k"
        false "ct" false).2.1 = [] ∧
    (S3Manager.upload_file_data_core .noSuchKey false ["b"] .otherType "k"
        false "ct" false).2.2 = ["b"] :=
  c10_reject_before_store .noSuchKey false ["b"] .otherType "k" "ct" false
    false (Or.inl rfl)

/-- The upload stage never modifies the uploaded-key history: the source
contains no append to self.uploaded_keys. -/
theorem upload_stage_uploaded_keys (st : AttachmentToS3Handler.State)
    (bucket : List String) (att : Attachment) (d : Option PyData)
    (fn : String) :
    (AttachmentToS3Handler.upload_stage st bucket att d fn).state.uploaded_keys
      = st.uploaded_keys := by
  cases d with
  | none => rfl
  | some data =>
    unfold AttachmentToS3Handler.upload_stage
    dsimp only
    split <;> split <;> rfl

/-- C1: the claim says each successful upload appends its key to the
instance uploaded-key history, and a later failing upload rolls back
exactly the keys uploaded so far.  The code initializes uploaded_keys but
never appends to it: process_asset leaves the history unchanged on every
path, so after two successful uploads the failing third call passes the
empty list to delete_files_in_list, which issues no delete at all — at
odds with the own error log of the handler announcing deletion of the uploaded
files, and with the claim, which expects the two previously uploaded keys
(here p/1_f1.bin and p/2_f2.bin). -/
theorem c1_rollback_history_eval :
    (∀ (st : AttachmentToS3Handler.State) (bucket : List String)
        (att : Attachment) (ts : String) (fetched : Option PyData)
        (compress : PyData → Option PyData),
      (AttachmentToS3Handler.process_asset st bucket att ts fetched
          compress).state.uploaded_keys = st.uploaded_keys) ∧
    (let o1 := AttachmentToS3Handler.process_asset ⟨"p", [], false, true⟩ []
        ⟨"f1.bin", "u1", "q1"⟩ "1" (some (.bytes 10)) (fun _ => none)
     let o2 := AttachmentToS3Handler.process_asset o1.state o1.bucket
        ⟨"f2.bin", "u2", "q2"⟩ "2" (some (.bytes 10)) (fun _ => none)
     let o3 := AttachmentToS3Handler.process_asset o2.state o2.bucket
        ⟨"f3.bin", "u3", "q3"⟩ "3"
        (some (.bytes (25 * 1024 * 1024 + 1))) (fun _ => none)
     o1.result = .success ⟨"f1.bin", "/p/1_f1.bin", "/p/1_f1.bin"⟩ ∧
     o1.bucket = ["p/1_f1.bin"] ∧
     o2.bucket = ["p/1_f1.bin", "p/2_f2.bin"] ∧
     o2.state.uploaded_keys = [] ∧
     o3.result = .uploadFailed [] .payloadTooLarge ∧
     o3.events = [] ∧
     ([] : List String) ≠ ["p/1_f1.bin", "p/2_f2.bin"]) := by
  constructor
  · intro st bucket att ts fetched compress
    exact upload_stage_uploaded_keys st bucket att
      (AttachmentToS3Handler.fetch_transcode att.filename fetched compress)
      (make_file_name ts att.filename)
  · decide

/-- C6: the claim says a transcode failure on a non-decodable image payload
makes both variants fall back to the original bytes.  In the code the
except clauses only pass: the local-file-host variant then writes nothing
at all (the original is saved only on the branch where compression was
never attempted) while still rewriting the URL fields, and the S3 variant
is left with data_to_upload = None and raises the no-data ValueError
instead of uploading the untransformed buffer. -/
theorem c6_transcode_fallback_eval :
    (∀ (st : AttachmentToS3Handler.State) (bucket : List String)
        (att : Attachment) (ts : String) (data : PyData),
      is_valid_image att.filename = true →
      AttachmentToS3Handler.process_asset st bucket att ts (some data)
          (fun _ => none) = ⟨.noData, st, bucket, []⟩) ∧
    (AttachmentToLocalFileHostHandler.process_asset (some 50) "base"
        "http://host" ⟨"pic.png", "u", "q"⟩ "9" true false).1 =
      .nothing ∧
    (AttachmentToLocalFileHostHandler.process_asset (some 50) "base"
        "http://host" ⟨"pic.png", "u", "q"⟩ "9" true false).2.url =
      "http://host/9_pic.png" ∧
    (AttachmentToLocalFileHostHandler.process_asset (some 50) "base"
        "http://host" ⟨"pic.png", "u", "q"⟩ "9" true false).2.proxy_url =
      "http://host/9_pic.png" := by
  refine ⟨?_, by decide, by decide, by decide⟩
  intro st bucket att ts data hvalid
  unfold AttachmentToS3Handler.process_asset
  simp [AttachmentToS3Handler.fetch_transcode, hvalid,
    AttachmentToS3Handler.upload_stage]

/-- C6 witness: the S3 no-fallback behavior at a concrete image name. -/
theorem c6_transcode_fallback_eval_witness :
    is_valid_image "pic.png" = true ∧
    AttachmentToS3Handler.process_asset ⟨"", [], false, true⟩ []
        ⟨"pic.png", "u", "q"⟩ "9" (some (.bytes 10)) (fun _ => none) =
      ⟨.noData, ⟨"", [], false, true⟩, [], []⟩ :=
  ⟨by decide,
   c6_transcode_fallback_eval.1 ⟨"", [], false, true⟩ []
     ⟨"pic.png", "u", "q"⟩ "9" (.bytes 10) (by decide)⟩

/-- Evaluation of the upload stage when a payload within the size limit is
present: with overwrite=True the upload always succeeds, the stripped
prefix is joined to the file name (omitted when empty), the bucket gains
the key, one put_object is issued with the content type of
_get_content_type, and both URL fields become /(prefix)/(file name). -/
theorem upload_stage_ok (st : AttachmentToS3Handler.State)
    (bucket : List String) (att : Attachment) (d : PyData) (n : Nat)
    (fn : String) (hd : _get_data_size d = some n)
    (hn : ¬ n > 25 * 1024 * 1024) :
    AttachmentToS3Handler.upload_stage st bucket att (some d) fn =
      ⟨.success ⟨att.filename,
          "/" ++ removesuffix st.prefixKey "/" ++ "/" ++ fn,
          "/" ++ removesuffix st.prefixKey "/" ++ "/" ++ fn⟩,
        ⟨removesuffix st.prefixKey "/", st.uploaded_keys,
          st.skip_files_which_are_too_large, st.client_present⟩,
        put_key bucket
          (if (removesuffix st.prefixKey "/").data.isEmpty then fn
            else removesuffix st.prefixKey "/" ++ "/" ++ fn),
        (if st.client_present then [] else [.acquireClient]) ++
          [.putObject
            (if (removesuffix st.prefixKey "/").data.isEmpty then fn
              else removesuffix st.prefixKey "/" ++ "/" ++ fn)
            (AttachmentToS3Handler._get_content_type fn)]⟩ := by
  unfold AttachmentToS3Handler.upload_stage
  dsimp only
  split
  · have hup : S3Manager.upload_file_data st.client_present bucket d fn true
        (AttachmentToS3Handler._get_content_type fn)
        st.skip_files_which_are_too_large =
        (.uploaded,
          (if st.client_present then [] else [.acquireClient]) ++
            [.putObject fn (AttachmentToS3Handler._get_content_type fn)],
          put_key bucket fn) := by
      simp [S3Manager.upload_file_data, S3Manager.upload_file_data_core,
        hd, hn]
    rw [hup]
    rfl
  · have hup : S3Manager.upload_file_data st.client_present bucket d
        (removesuffix st.prefixKey "/" ++ "/" ++ fn) true
        (AttachmentToS3Handler._get_content_type fn)
        st.skip_files_which_are_too_large =
        (.uploaded,
          (if st.client_present then [] else [.acquireClient]) ++
            [.putObject (removesuffix st.prefixKey "/" ++ "/" ++ fn)
              (AttachmentToS3Handler._get_content_type fn)],
          put_key bucket (removesuffix st.prefixKey "/" ++ "/" ++ fn)) := by
      simp [S3Manager.upload_file_data, S3Manager.upload_file_data_core,
        hd, hn]
    rw [hup]
    rfl

/-- C7 counterexample: with prefix exports/ and attachment photo.PNG at
timestamp 1234.5, the upload key is exports/1234.5_photo.PNG as claimed,
but both URL fields are set to /exports/1234.5_photo.PNG with a single
slash — not the double-slash string /exports//1234.5_photo.PNG the claim
pins — because the url is built from self.key_prefix after its trailing
slash was stripped in place. -/
theorem c7_url_counterexample :
    (AttachmentToS3Handler.process_asset ⟨"exports/", [], false, true⟩ []
        ⟨"photo.PNG", "u", "q"⟩ "1234.5" (some (.bytes 10))
        (fun _ => some (.buffer 7))).bucket = ["exports/1234.5_photo.PNG"] ∧
    (AttachmentToS3Handler.process_asset ⟨"exports/", [], false, true⟩ []
        ⟨"photo.PNG", "u", "q"⟩ "1234.5" (some (.bytes 10))
        (fun _ => some (.buffer 7))).result =
      .success ⟨"photo.PNG", "/exports/1234.5_photo.PNG",
        "/exports/1234.5_photo.PNG"⟩ ∧
    ("/exports/1234.5_photo.PNG" : String) ≠ "/exports//1234.5_photo.PNG" := by
  decide

/-- C7 amended: for a handler with prefix exports/ and attachment
photo.PNG, the upload key is exports/(ts)_photo.PNG with no double slash,
the prefix is omitted from the key entirely when empty, and on success
both URL fields are set to /exports/(ts)_photo.PNG — a single slash, since
the URL is built from the already-stripped prefix. -/
theorem c7_key_and_url_amended :
    (∀ ts : String,
      (AttachmentToS3Handler.process_asset ⟨"exports/", [], false, true⟩ []
          ⟨"photo.PNG", "u", "q"⟩ ts (some (.bytes 10))
          (fun _ => some (.buffer 7))).bucket =
        ["exports/" ++ make_file_name ts "photo.PNG"] ∧
      (AttachmentToS3Handler.process_asset ⟨"exports/", [], false, true⟩ []
          ⟨"photo.PNG", "u", "q"⟩ ts (some (.bytes 10))
          (fun _ => some (.buffer 7))).result =
        .success ⟨"photo.PNG",
          "/exports/" ++ make_file_name ts "photo.PNG",
          "/exports/" ++ make_file_name ts "photo.PNG"⟩) ∧
    (∀ (bucket : List String) (att : Attachment) (file_name : String),
      (AttachmentToS3Handler.upload_stage ⟨"", [], false, true⟩ bucket att
          (some (.bytes 10)) file_name).bucket = put_key bucket file_name) := by
  constructor
  · intro ts
    have hp : AttachmentToS3Handler.process_asset
          ⟨"exports/", [], false, true⟩ [] ⟨"photo.PNG", "u", "q"⟩ ts
          (some (.bytes 10)) (fun _ => some (.buffer 7)) =
        AttachmentToS3Handler.upload_stage ⟨"exports/", [], false, true⟩ []
          ⟨"photo.PNG", "u", "q"⟩ (some (.buffer 7))
          (make_file_name ts "photo.PNG") := rfl
    rw [hp, upload_stage_ok ⟨"exports/", [], false, true⟩ []
      ⟨"photo.PNG", "u", "q"⟩ (.buffer 7) 7 (make_file_name ts "photo.PNG")
      rfl (by norm_num)]
    dsimp only
    have hr : removesuffix "exports/" "/" = "exports" := by decide
    rw [hr]
    simp only [← String.append_assoc]
    exact ⟨rfl, rfl⟩
  · intro bucket att file_name
    rw [upload_stage_ok ⟨"", [], false, true⟩ bucket att (.bytes 10) 10
      file_name rfl (by norm_num)]
    rfl
